import Mathlib

/-!
Verification development for the system-bridge backend core: a shallow
embedding of the websocket session engine and protocol dispatcher
(`systembridgebackend/server/websocket.py`) and of the update scheduler
(`systembridgebackend/modules/__init__.py`, `systembridgebackend/data.py`),
together with theorems about the protocol invariants of the design document.
-/

namespace SystemBridge

/-- Error subtype vocabulary: the `SUBTYPE_*` constants attached to error
responses on the wire. -/
inductive ErrSub
  | bad_api_key
  | bad_directory
  | bad_file
  | bad_json
  | bad_path
  | bad_request
  | invalid_action
  | listener_already_registered
  | listener_not_registered
  | missing_action
  | missing_key
  | missing_modules
  | missing_path_url
  | missing_text
  | missing_title
  | missing_value
  | unknown_event
  deriving DecidableEq

/-- Response type tags: the `TYPE_*` constants used as `EVENT_TYPE` of
outbound responses. -/
inductive RespType
  | error
  | applicationUpdating
  | dataGet
  | dataListenerRegistered
  | dataListenerUnregistered
  | dataUpdate
  | directoriesResult
  | filesResult
  | fileResult
  | keyboardKeyPressed
  | keyboardTextSent
  | notificationSent
  | opened
  | powerSleeping
  | powerHibernating
  | powerRestarting
  | powerShuttingdown
  | powerLocking
  | powerLoggingout
  | settingsResult
  | settingResult
  | settingUpdated
  | getRemoteBridgesResult
  | updateRemoteBridgeResult
  deriving DecidableEq

/-- Snapshot of one category table as returned by `Database.get_data_dict`
(a mapping; modelled as an association list). -/
abbrev DataDict := List (String × String)

/-- Outbound response envelope: the dict passed to `Response(**{...})`.
Payload fields that no claim inspects (directory listings, settings values,
version info, file payloads) are elided from the model. -/
structure Response where
  id : Option String := none
  rtype : RespType
  message : String := ""
  subtype : Option ErrSub := none
  module : Option String := none
  modules : Option (List String) := none
  path : Option String := none
  url : Option String := none
  payload : Option DataDict := none
  deriving DecidableEq

/-- Media transport actions: the `Action` enum of
`systembridgemodels.media_control` (`repeatAct` stands for the `repeat`
member, renamed to avoid a Lean keyword). -/
inductive MediaAction
  | play
  | pause
  | stop
  | previous
  | next
  | seek
  | rewind
  | fastforward
  | shuffle
  | repeatAct
  | mute
  | volumedown
  | volumeup
  deriving DecidableEq

/-- The membership test `model.action not in MediaAction` of the dispatcher,
as a parse function over the wire string. -/
def parseAction : String → Option MediaAction
  | "play" => some .play
  | "pause" => some .pause
  | "stop" => some .stop
  | "previous" => some .previous
  | "next" => some .next
  | "seek" => some .seek
  | "rewind" => some .rewind
  | "fastforward" => some .fastforward
  | "shuffle" => some .shuffle
  | "repeat" => some .repeatAct
  | "mute" => some .mute
  | "volumedown" => some .volumedown
  | "volumeup" => some .volumeup
  | _ => none

/-- Actions whose dispatcher branch additionally checks `model.value` before
invoking the transport control (`seek`, `shuffle`, `repeat`). -/
def requiresValue : MediaAction → Bool
  | .seek => true
  | .shuffle => true
  | .repeatAct => true
  | _ => false

/-- Inbound event tags: the `TYPE_*` constants that `_handle_event` compares
`request.event` against; `unknownEv` covers every other string. -/
inductive Event
  | applicationUpdate
  | exitApplication
  | keyboardKeypress
  | keyboardText
  | mediaControl
  | notification
  | openEvent
  | registerDataListener
  | unregisterDataListener
  | getData
  | getDirectories
  | getFiles
  | getFile
  | getSettings
  | getSetting
  | getRemoteBridges
  | updateRemoteBridge
  | updateSetting
  | powerSleep
  | powerHibernate
  | powerRestart
  | powerShutdown
  | powerLock
  | powerLogout
  | unknownEv (name : String)
  deriving DecidableEq

/-- Event-specific fields of the inbound request dict, as consumed by the
per-event pydantic models. `parseOk = false` models the event's model
constructor (`UpdateModel`, `KeyboardKey`, `MediaControl`, ...) raising
`ValueError` on the dict. An `Option` field is `none` when the key is absent
from the dict (or its value is `None`). -/
structure ReqData where
  parseOk : Bool := true
  key : Option String := none
  text : Option String := none
  action : Option String := none
  value : Option Int := none
  title : Option String := none
  path : Option String := none
  url : Option String := none
  modules : Option (List String) := none
  setting : Option String := none
  valueBool : Option Bool := none
  version : Option String := none
  base : Option String := none
  deriving DecidableEq

/-- Validated request envelope (`Request(**data)`): correlation id, event
tag and api key, with the rest of the dict kept alongside (the source passes
the raw `data` dict on to `_handle_event`). -/
structure Request where
  id : Option String := none
  event : Event
  apiKey : String := ""
  data : ReqData := {}
  deriving DecidableEq

/-- External side effects invoked by the dispatcher (calls into the OS
action shims, the settings store, the exit callback and the listener
registry). -/
inductive Effect
  | exitApp
  | keypress (k : String)
  | typeText (t : String)
  | mediaAction (a : MediaAction) (v : Option Int)
  | openGui (channel : String)
  | openPath (p : String)
  | openUrl (u : String)
  | addListenerCall (cid : String) (mods : List String)
  | removeListenerCall (cid : String)
  | updateVersion (v : Option String)
  | updateBridge
  | setSetting (s : String)
  | autostartEnable
  | autostartDisable
  | sleepAct
  | hibernateAct
  | restartAct
  | shutdownAct
  | lockAct
  | logoutAct
  deriving DecidableEq

/-- Listener Registry state: connection id mapped to its subscribed module
names (the callback of a registration is identified by its connection id,
since each connection registers its own `_data_changed`). -/
abbrev Listeners := List (String × List String)

/-- Modelled from the spec: `Listeners.add_listener` of
`modules/listeners.py`, which is not under `src/`. Per the contract, if the
connection id already holds a registration it returns `true` (already
registered) and performs no mutation; otherwise it stores the registration
and returns `false`. -/
def add_listener (reg : Listeners) (cid : String) (mods : List String) :
    Bool × Listeners :=
  if reg.any (fun p => p.1 == cid) then (true, reg)
  else (false, (cid, mods) :: reg)

/-- Modelled from the spec: `Listeners.remove_listener` of
`modules/listeners.py`, which is not under `src/`. Returns whether a
registration existed; idempotent and safe on a never-registered id. -/
def remove_listener (reg : Listeners) (cid : String) : Bool × Listeners :=
  (reg.any (fun p => p.1 == cid), reg.filter (fun p => p.1 != cid))

/-- Modelled from the spec: the delivery targets of `Listeners.notify` of
`modules/listeners.py`, which is not under `src/`. A notification for a
category is delivered to every registration whose subscribed set contains
that category. -/
def notifyTargets (reg : Listeners) (category : String) : List String :=
  (reg.filter (fun p => p.2.contains category)).map (fun p => p.1)

/-- Registered module names: the `MODULES` constant of
`modules/__init__.py`. -/
def MODULES : List String :=
  ["battery", "cpu", "disk", "display", "gpu", "media", "memory", "network",
   "processes", "sensors", "system"]

/-- External collaborators consulted by the session: the configured shared
secret, the Store (composition of `TABLE_MAP.get` and
`Database.get_data_dict`, `none` when the lookup yields no data), the media
directory configuration, filesystem predicates, and whether
`keyboard_keypress` raises `ValueError` for a key. -/
structure Env where
  secret : String
  store : String → Option DataDict
  directories : List (String × String)
  pathExists : String → Bool
  isDir : String → Bool
  isFile : String → Bool
  keyInvalid : String → Bool

/-- Error response constructor: the `Response(**{EVENT_ID, TYPE_ERROR,
EVENT_SUBTYPE, EVENT_MESSAGE})` pattern of the dispatcher. -/
def errResp (i : Option String) (st : ErrSub) (msg : String) : Response :=
  { id := i, rtype := .error, message := msg, subtype := some st }

/-- The protocol dispatcher `WebSocketHandler._handle_event`: maps one
authenticated request to the responses it passes to `_send_response` (in
order), the external side effects it invokes (in order), and the updated
listener registry. Interpolated pieces of log-style message strings (the
`{error}` text of `Invalid request: {error}` messages) are elided. -/
def handle_event (env : Env) (lid : String) (reg : Listeners) (req : Request) :
    List Response × List Effect × Listeners :=
  let d := req.data
  match req.event with
  | .applicationUpdate =>
    if d.parseOk then
      ([{ id := req.id, rtype := .applicationUpdating,
          message := "Updating application" }],
       [.updateVersion d.version], reg)
    else ([errResp req.id .bad_request "Invalid request"], [], reg)
  | .exitApplication =>
    -- the branch only invokes `self._callback_exit_application()` and logs
    ([], [.exitApp], reg)
  | .keyboardKeypress =>
    if d.parseOk then
      match d.key with
      | none => ([errResp req.id .missing_key "No key provided"], [], reg)
      | some k =>
        if env.keyInvalid k then
          -- `keyboard_keypress(model.key)` raised `ValueError`
          ([errResp req.id .missing_key "Invalid key"], [], reg)
        else
          ([{ id := req.id, rtype := .keyboardKeyPressed,
              message := "Key pressed" }],
           [.keypress k], reg)
    else ([errResp req.id .bad_request "Invalid request"], [], reg)
  | .keyboardText =>
    if d.parseOk then
      match d.text with
      | none => ([errResp req.id .missing_text "No text provided"], [], reg)
      | some t =>
        ([{ id := req.id, rtype := .keyboardTextSent,
            message := "Key pressed" }],
         [.typeText t], reg)
    else ([errResp req.id .bad_request "Invalid request"], [], reg)
  | .mediaControl =>
    if d.parseOk then
      match d.action with
      | none => ([errResp req.id .missing_action "No action provided"], [], reg)
      | some s =>
        match parseAction s with
        | none =>
          ([errResp req.id .invalid_action "Invalid action provided"], [], reg)
        | some a =>
          -- the 13 `elif model.action == MediaAction.x` branches, grouped:
          -- seek/shuffle/repeat check `model.value` first, the rest call the
          -- transport control directly; no branch sends a success response
          if requiresValue a then
            match d.value with
            | none =>
              ([errResp req.id .missing_value "No value provided"], [], reg)
            | some v => ([], [.mediaAction a (some v)], reg)
          else ([], [.mediaAction a none], reg)
    else ([errResp req.id .bad_request "Invalid request"], [], reg)
  | .notification =>
    if d.parseOk then
      match d.title with
      | none => ([errResp req.id .missing_title "No title provided"], [], reg)
      | some _ =>
        ([{ id := req.id, rtype := .notificationSent,
            message := "Notification sent" }],
         [.openGui "notification"], reg)
    else ([errResp req.id .bad_request "Invalid request"], [], reg)
  | .openEvent =>
    -- `if "path" in data` takes priority over `if "url" in data`
    match d.path with
    | some p =>
      if d.parseOk then
        ([{ id := req.id, rtype := .opened, message := "Path opened",
            path := some p }],
         [.openPath p], reg)
      else ([errResp req.id .bad_request "Invalid request"], [], reg)
    | none =>
      match d.url with
      | some u =>
        if d.parseOk then
          ([{ id := req.id, rtype := .opened, message := "URL opened",
              url := some u }],
           [.openUrl u], reg)
        else ([errResp req.id .bad_request "Invalid request"], [], reg)
      | none =>
        ([errResp req.id .missing_path_url "No path or url provided"], [], reg)
  | .registerDataListener =>
    if d.parseOk then
      match d.modules with
      | none => ([errResp req.id .missing_modules "No modules provided"], [], reg)
      | some ms =>
        if ms.isEmpty then
          ([errResp req.id .missing_modules "No modules provided"], [], reg)
        else
          let res := add_listener reg lid ms
          if res.1 then
            ([{ errResp req.id .listener_already_registered
                  "Listener already registered with this connection" with
                modules := some ms }],
             [.addListenerCall lid ms], res.2)
          else
            ([{ id := req.id, rtype := .dataListenerRegistered,
                message := "Data listener registered", modules := some ms }],
             [.addListenerCall lid ms], res.2)
    else ([errResp req.id .bad_request "Invalid request"], [], reg)
  | .unregisterDataListener =>
    let res := remove_listener reg lid
    if res.1 then
      ([{ id := req.id, rtype := .dataListenerUnregistered,
          message := "Data listener unregistered" }],
       [.removeListenerCall lid], res.2)
    else
      ([errResp req.id .listener_not_registered
          "Listener not registered with this connection"],
       [.removeListenerCall lid], res.2)
  | .getData =>
    if d.parseOk then
      match d.modules with
      | none => ([errResp req.id .missing_modules "No modules provided"], [], reg)
      | some ms =>
        if ms.isEmpty then
          ([errResp req.id .missing_modules "No modules provided"], [], reg)
        else
          ({ id := req.id, rtype := .dataGet, message := "Getting data",
             modules := some ms } ::
            ms.filterMap (fun m =>
              (env.store m).map (fun dd =>
                { id := req.id, rtype := .dataUpdate,
                  message := "Data received", module := some m,
                  payload := some dd })),
           [], reg)
    else ([errResp req.id .bad_request "Invalid request"], [], reg)
  | .getDirectories =>
    ([{ id := req.id, rtype := .directoriesResult }], [], reg)
  | .getFiles =>
    if d.parseOk then
      match (env.directories.find? (fun kv => kv.1 == d.base.getD "")).map
          (fun kv => kv.2) with
      | none => ([errResp req.id .bad_path "Cannot find base path"], [], reg)
      | some root =>
        if env.pathExists root then
          let pth := match d.path with
            | some p => root ++ "/" ++ p
            | none => root
          if env.pathExists pth then
            if env.isDir pth then
              ([{ id := req.id, rtype := .filesResult, path := some pth }],
               [], reg)
            else
              ([{ errResp req.id .bad_directory "Path is not a directory" with
                  path := some pth }], [], reg)
          else
            ([{ errResp req.id .bad_path "Cannot find path" with
                path := some pth }], [], reg)
        else ([errResp req.id .bad_path "Cannot find base path"], [], reg)
    else ([errResp req.id .bad_request "Invalid request"], [], reg)
  | .getFile =>
    if d.parseOk then
      match (env.directories.find? (fun kv => kv.1 == d.base.getD "")).map
          (fun kv => kv.2) with
      | none => ([errResp req.id .bad_path "Cannot find base path"], [], reg)
      | some root =>
        if env.pathExists root then
          let pth := root ++ "/" ++ d.path.getD ""
          if env.pathExists pth then
            if env.isFile pth then
              ([{ id := req.id, rtype := .fileResult, path := some pth }],
               [], reg)
            else
              ([{ errResp req.id .bad_file "Path is not a file" with
                  path := some pth }], [], reg)
          else
            ([{ errResp req.id .bad_path "Cannot find path" with
                path := some pth }], [], reg)
        else ([errResp req.id .bad_path "Cannot find base path"], [], reg)
    else ([errResp req.id .bad_request "Invalid request"], [], reg)
  | .getSettings =>
    ([{ id := req.id, rtype := .settingsResult, message := "Got settings" }],
     [], reg)
  | .getSetting =>
    if d.parseOk then
      ([{ id := req.id, rtype := .settingResult, message := "Got setting" }],
       [], reg)
    else ([errResp req.id .bad_request "Invalid request"], [], reg)
  | .getRemoteBridges =>
    ([{ id := req.id, rtype := .getRemoteBridgesResult,
        message := "Got remote bridges" }], [], reg)
  | .updateRemoteBridge =>
    if d.parseOk then
      ([{ id := req.id, rtype := .updateRemoteBridgeResult,
          message := "Data updated" }],
       [.updateBridge], reg)
    else ([errResp req.id .bad_request "Invalid request"], [], reg)
  | .updateSetting =>
    if d.parseOk then
      ([{ id := req.id, rtype := .settingUpdated,
          message := "Setting updated" }],
       .setSetting (d.setting.getD "") ::
         (if d.setting.getD "" == "autostart" then
            [if d.valueBool == some true then Effect.autostartEnable
             else Effect.autostartDisable]
          else []),
       reg)
    else ([errResp req.id .bad_request "Invalid request"], [], reg)
  | .powerSleep =>
    ([{ id := req.id, rtype := .powerSleeping, message := "Sleeping" }],
     [.sleepAct], reg)
  | .powerHibernate =>
    ([{ id := req.id, rtype := .powerHibernating, message := "Hiibernating" }],
     [.hibernateAct], reg)
  | .powerRestart =>
    ([{ id := req.id, rtype := .powerRestarting, message := "Restarting" }],
     [.restartAct], reg)
  | .powerShutdown =>
    ([{ id := req.id, rtype := .powerShuttingdown, message := "Shutting down" }],
     [.shutdownAct], reg)
  | .powerLock =>
    ([{ id := req.id, rtype := .powerLocking, message := "Locking" }],
     [.lockAct], reg)
  | .powerLogout =>
    ([{ id := req.id, rtype := .powerLoggingout, message := "Logging out" }],
     [.logoutAct], reg)
  | .unknownEv _ =>
    ([errResp req.id .unknown_event "Unknown event"], [], reg)

/-- One inbound step of the receive loop, as seen at `_handler`'s `try`
blocks: a wire message that fails JSON decoding (`JSONDecodeError`), one
whose envelope fails `Request(**data)` validation (`ValueError`), a decoded
request (with, optionally, the message of an exception that `_handle_event`
will raise on it; the model places the raise before any modelled output of
the dispatch), a `ConnectionError`/`WebSocketDisconnect` raised by the
transport, or any other exception raised outside the dispatch guard. -/
inductive Incoming
  | badJson
  | badEnvelope
  | msg (req : Request) (raised : Option String)
  | connClosed
  | fatal (m : String)

/-- How a session's receive loop ended: input exhausted while still looping,
one of the three connection-fatal returns, a connection error (caught by the
outer `handler`), or an exception that propagates out of `_handler`. -/
inductive SessionEnd
  | drained
  | closedBadJson
  | closedBadRequest
  | closedBadApiKey
  | connectionClosed
  | crashed (m : String)
  deriving DecidableEq

/-- Result of running a session: the responses sent, the side effects
performed, the final registry, and how the loop ended. -/
structure SessionResult where
  responses : List Response
  effects : List Effect
  registry : Listeners
  ending : SessionEnd
  deriving DecidableEq

/-- The receive loop body of `WebSocketHandler._handler`, iterated over a
finite prefix of the connection's inbound traffic: decode, authenticate
against the shared secret, dispatch inside the broad `except Exception`
guard, and loop; decode failures and api-key mismatches send one error
response and return. -/
def handler_loop (env : Env) (lid : String) :
    List Incoming → Listeners → SessionResult
  | [], reg => ⟨[], [], reg, .drained⟩
  | inc :: rest, reg =>
    match inc with
    | .badJson =>
      ⟨[errResp none .bad_json "Invalid JSON"], [], reg, .closedBadJson⟩
    | .badEnvelope =>
      ⟨[errResp none .bad_request "Invalid request"], [], reg,
       .closedBadRequest⟩
    | .connClosed => ⟨[], [], reg, .connectionClosed⟩
    | .fatal m => ⟨[], [], reg, .crashed m⟩
    | .msg req raised =>
      if req.apiKey != env.secret then
        ⟨[errResp req.id .bad_api_key "Invalid api-key"], [], reg,
         .closedBadApiKey⟩
      else
        match raised with
        | some m =>
          let r := handler_loop env lid rest reg
          ⟨errResp req.id .unknown_event m :: r.responses, r.effects,
           r.registry, r.ending⟩
        | none =>
          let out := handle_event env lid reg req
          let r := handler_loop env lid rest out.2.2
          ⟨out.1 ++ r.responses, out.2.1 ++ r.effects, r.registry, r.ending⟩

/-- `WebSocketHandler._handler`: the `while self._active` loop. With the
session inactive the loop body never runs (and `_send_response` drops every
send); the model fixes `active` for the run, since `set_active` is only
called by an external owner. -/
def run_handler (env : Env) (lid : String) (active : Bool) (reg : Listeners)
    (msgs : List Incoming) : SessionResult :=
  if active then handler_loop env lid msgs reg else ⟨[], [], reg, .drained⟩

/-- `WebSocketHandler.handler`: runs `_handler` under
`try/except (ConnectionError, WebSocketDisconnect)/finally`; the `finally`
block unconditionally calls `Listeners.remove_listener(listener_id)`, on
every exit path including a propagating exception. -/
def handler (env : Env) (lid : String) (active : Bool) (reg : Listeners)
    (msgs : List Incoming) : SessionResult :=
  let r := run_handler env lid active reg msgs
  { r with
    registry := (remove_listener r.registry lid).2
    effects := r.effects ++ [.removeListenerCall lid] }

/-- `WebSocketHandler._data_changed`: the push callback handed to the
Listener Registry. A module name outside `MODULES` is logged and dropped;
otherwise a `data-update` response is sent (subject to the `_send_response`
active gate). -/
def data_changed (active : Bool) (module : String) (d : DataDict) :
    List Response :=
  if MODULES.contains module then
    if active then
      [{ rtype := .dataUpdate, message := "Data changed",
         module := some module, payload := some d }]
    else []
  else []

/-! Update scheduler (`modules/__init__.py`). Each member refresh is
`Update._update`: `await cls.update_all_data()` then
`await self.updated_callback(name)`. A trigger drives its members with
`asyncio.gather`. Two complementary models follow: an event-trace model of
the successful interleavings (for the ordering claims) and an
exception-propagation model (for the failure-policy claims). -/

/-- Scheduler events observable per category: the Store refresh completing
and the completion notification firing. -/
inductive UEvent
  | refresh (c : String)
  | notify (c : String)
  deriving DecidableEq

/-- Category of a scheduler event. -/
def catOf : UEvent → String
  | .refresh c => c
  | .notify c => c

/-- The event sequence of `Update._update` for one category: refresh the
Store, then fire the completion notification. -/
def seqOf (c : String) : List UEvent := [.refresh c, .notify c]

/-- Member categories of the frequent trigger, in the order of
`Update._classes_frequent`. -/
def frequentNames : List String :=
  ["cpu", "display", "gpu", "memory", "network", "processes"]

/-- Member categories of the full trigger, in the order of
`Update._classes`. -/
def fullNames : List String := ["battery", "disk", "system"]

/-- Merge relation: `Merge ls t` holds when `t` is an interleaving of the
sequences in `ls` (each step consumes the head of one sequence; the order
within each sequence is preserved). This is the set of schedules
`asyncio.gather` can produce for its member tasks. -/
inductive Merge {α : Type} : List (List α) → List α → Prop
  | nil (ls : List (List α)) (h : ∀ l ∈ ls, l = []) : Merge ls []
  | step (ls : List (List α)) (i : Nat) (a : α) (rest t : List α)
      (hi : i < ls.length) (hhead : ls[i] = a :: rest)
      (hrec : Merge (ls.set i rest) t) : Merge ls (a :: t)

/-- The possible event traces of a successful `Update.update_frequent_data`
run: `sensors` is refreshed and notified first (sequentially, before the
gather starts), then the six frequent members run under `asyncio.gather` in
some interleaving. -/
def FrequentTrace (t : List UEvent) : Prop :=
  ∃ t6, Merge (frequentNames.map seqOf) t6 ∧
    t = UEvent.refresh "sensors" :: UEvent.notify "sensors" :: t6

/-- Outcome of one collector's `update_all_data` call: success, or the
exception message it raises. -/
abbrev Outcomes := String → Except String Unit

/-- `Update._update` in the exception model: a raising refresh propagates
and the completion notification does not fire; a successful one returns its
fired notification. -/
def updateOne (oc : Outcomes) (c : String) : Except String (List String) :=
  match oc c with
  | .ok _ => .ok [c]
  | .error e => .error e

/-- `asyncio.gather` over the member tasks of a trigger, in the exception
model: if every member succeeds the trigger completes with all
notifications; otherwise the leftmost raising member's exception propagates
out of the gather (uncaught by the scheduler) and the remaining siblings'
completions are not awaited. -/
def gatherUpdates (oc : Outcomes) (cs : List String) :
    Except String (List String) :=
  cs.foldr
    (fun c acc =>
      match updateOne oc c, acc with
      | .error e, _ => .error e
      | .ok _, .error e => .error e
      | .ok ns, .ok rest => .ok (ns ++ rest))
    (.ok [])

/-- `Update.update_frequent_data` in the exception model: sensors first
(sequentially), then the frequent members gathered; the result lists the
notifications fired on success. No exception handler appears anywhere in
the trigger. -/
def update_frequent_data (oc : Outcomes) : Except String (List String) :=
  match oc "sensors" with
  | .error e => .error e
  | .ok _ =>
    match gatherUpdates oc frequentNames with
    | .error e => .error e
    | .ok ns => .ok ("sensors" :: ns)

/-- `Update.update_data` (the full trigger) in the exception model. -/
def update_data (oc : Outcomes) : Except String (List String) :=
  gatherUpdates oc fullNames

/-- Success condition of a media-control dispatch: the request parses, the
action is present and in the enumerated set, and an action that checks
`model.value` has one. Exactly in this case the dispatcher reaches a
transport-control call. -/
def mediaSuccess (d : ReqData) : Bool :=
  d.parseOk &&
    (match d.action with
     | none => false
     | some s =>
       match parseAction s with
       | none => false
       | some a => !requiresValue a || d.value.isSome)

/-- Validation-success condition of a get-data dispatch: the request parses
and carries a non-empty modules list. -/
def getDataOk (d : ReqData) : Bool :=
  d.parseOk &&
    (match d.modules with
     | none => false
     | some ms => !ms.isEmpty)

/-- Number of responses the dispatcher emits for a request: one for every
event, except exit-application (none), a media-control that reaches its
transport-control call (none), and a validated get-data (one ack plus one
push per requested category found in the Store). -/
def expectedCount (env : Env) (req : Request) : Nat :=
  match req.event with
  | .exitApplication => 0
  | .mediaControl => if mediaSuccess req.data then 0 else 1
  | .getData =>
    if getDataOk req.data then
      1 + ((req.data.modules.getD []).filter
             (fun m => (env.store m).isSome)).length
    else 1
  | _ => 1

/-- Concrete collaborator environment used for concrete evaluations. -/
def envC : Env :=
  { secret := "K", store := fun _ => none, directories := [],
    pathExists := fun _ => false, isDir := fun _ => false,
    isFile := fun _ => false, keyInvalid := fun _ => false }

/-- Concrete frequent-trigger trace: sensors first, then the six members
run to completion one after the other (a legal `gather` schedule). -/
def seqTrace : List UEvent :=
  UEvent.refresh "sensors" :: UEvent.notify "sensors" ::
    (frequentNames.map seqOf).flatten

/-- Concrete collector outcomes where the memory collector raises. -/
def oc0 : Outcomes :=
  fun c => if c == "memory" then .error "boom" else .ok ()

/-! Helper lemmas. -/

/-- Counting lemma: a `filterMap` that maps through an `Option`-valued
lookup keeps exactly the entries whose lookup is `some`. -/
theorem length_filterMap_map {α β γ : Type} (h : α → Option β)
    (g : α → β → γ) (ms : List α) :
    (ms.filterMap (fun m => (h m).map (g m))).length
      = (ms.filter (fun m => (h m).isSome)).length := by
  induction ms with
  | nil => rfl
  | cons x xs ih =>
    cases hx : h x <;>
      simp [List.filterMap_cons, List.filter_cons, hx, ih]

/-- A merge of a family of sequences is unchanged by prepending an empty
sequence to the family. -/
theorem merge_skip {α : Type} {ls : List (List α)} {t : List α}
    (h : Merge ls t) : Merge ([] :: ls) t := by
  induction h with
  | nil ls h =>
    refine .nil ([] :: ls) ?_
    intro l hl
    rcases List.mem_cons.mp hl with rfl | hl
    · rfl
    · exact h l hl
  | step ls i a rest t hi hhead hrec ih =>
    exact .step ([] :: ls) (i + 1) a rest t (Nat.succ_lt_succ hi) hhead ih

/-- Running one member sequence to completion before the rest is a legal
merge. -/
theorem merge_cons {α : Type} (l : List α) {ls : List (List α)} {t : List α}
    (h : Merge ls t) : Merge (l :: ls) (l ++ t) := by
  induction l with
  | nil => simpa using merge_skip h
  | cons a l ih => exact .step ((a :: l) :: ls) 0 a l (l ++ t) (by simp) rfl ih

/-- The fully sequential schedule is a legal merge. -/
theorem merge_join {α : Type} : ∀ ls : List (List α), Merge ls ls.flatten
  | [] => .nil [] (by simp)
  | l :: ls => merge_cons l (merge_join ls)

/-- Every event of a merged trace comes from one of the member sequences. -/
theorem merge_mem {α : Type} {ls : List (List α)} {t : List α}
    (h : Merge ls t) : ∀ a ∈ t, ∃ l ∈ ls, a ∈ l := by
  induction h with
  | nil ls h => intro a ha; cases ha
  | step ls i b rest t hi hhead hrec ih =>
    intro a ha
    rcases List.mem_cons.mp ha with rfl | ha
    · exact ⟨ls[i], List.getElem_mem hi, by rw [hhead]; exact List.mem_cons_self _ _⟩
    · rcases ih a ha with ⟨l, hl, hal⟩
      rcases List.mem_or_eq_of_mem_set hl with hl2 | rfl
      · exact ⟨l, hl2, hal⟩
      · exact ⟨ls[i], List.getElem_mem hi,
          by rw [hhead]; exact List.mem_cons_of_mem _ hal⟩

/-- Order-preservation of merging: if all events satisfying `p` come from
the member sequence at index `i`, then the `p`-subsequence of the merged
trace is exactly the `p`-subsequence of that member. -/
theorem merge_filter {α : Type} (p : α → Bool) {ls : List (List α)}
    {t : List α} (h : Merge ls t) :
    ∀ i (hi : i < ls.length),
      (∀ j (hj : j < ls.length), j ≠ i → (ls[j]).filter p = []) →
      t.filter p = (ls[i]).filter p := by
  induction h with
  | nil ls h =>
    intro i hi hside
    rw [h ls[i] (List.getElem_mem hi)]
  | step ls k a rest t hk hhead hrec ih =>
    intro i hi hside
    by_cases hki : k = i
    · subst hki
      have hset : ∀ j (hj : j < (ls.set k rest).length), j ≠ k →
          ((ls.set k rest)[j]).filter p = [] := by
        intro j hj hjk
        rw [List.getElem_set_ne (fun he => hjk he.symm)]
        exact hside j (by simpa using hj) hjk
      have ht : t.filter p = rest.filter p := by
        have := ih k (by simpa using hk) hset
        rwa [List.getElem_set_self] at this
      rw [hhead, List.filter_cons, List.filter_cons]
      cases hpa : p a <;> simp [ht]
    · have hfk : (ls[k]).filter p = [] := hside k hk hki
      rw [hhead, List.filter_cons] at hfk
      have hpa : p a = false := by
        cases hpa : p a
        · rfl
        · rw [hpa] at hfk; simp at hfk
      rw [hpa] at hfk
      have hset : ∀ j (hj : j < (ls.set k rest).length), j ≠ i →
          ((ls.set k rest)[j]).filter p = [] := by
        intro j hj hji
        by_cases hjk : j = k
        · subst hjk
          rw [List.getElem_set_self]
          exact hfk
        · rw [List.getElem_set_ne (fun he => hjk he.symm)]
          exact hside j (by simpa using hj) hji
      have ht := ih i (by simpa using hi) hset
      rw [List.getElem_set_ne hki] at ht
      simp [List.filter_cons, hpa, ht]

/-- Every entry surviving `remove_listener` belongs to another connection. -/
theorem remove_listener_removes (reg : Listeners) (cid : String) :
    ∀ p ∈ (remove_listener reg cid).2, p.1 ≠ cid := by
  intro p hp
  have h := List.mem_filter.mp hp
  simpa [bne_iff_ne] using h.2

/-- A raising member makes the gathered trigger raise, with the exception
of one of the members. -/
theorem gather_error {oc : Outcomes} :
    ∀ {cs : List String} {c : String} {e : String}, c ∈ cs →
      oc c = .error e →
      ∃ e2, gatherUpdates oc cs = .error e2 ∧ ∃ c2 ∈ cs, oc c2 = .error e2 := by
  intro cs
  induction cs with
  | nil => intro c e hc; cases hc
  | cons x xs ih =>
    intro c e hc he
    rcases List.mem_cons.mp hc with rfl | hc
    · refine ⟨e, ?_, c, List.mem_cons_self _ _, he⟩
      simp [gatherUpdates, updateOne, he]
    · rcases ih hc he with ⟨e2, hg, c2, hc2, he2⟩
      cases hx : oc x with
      | error ex =>
        refine ⟨ex, ?_, x, List.mem_cons_self _ _, hx⟩
        simp [gatherUpdates, updateOne, hx]
      | ok u =>
        refine ⟨e2, ?_, c2, List.mem_cons_of_mem _ hc2, he2⟩
        simp only [gatherUpdates, List.foldr_cons] at hg ⊢
        rw [hg]
        simp [updateOne, hx]

/-! Claim theorems. -/

/-- Claim C1, counterexample: an exit-application request that reaches the
dispatcher yields zero responses, not exactly one as the claim states (the
branch only invokes the exit callback). -/
theorem exit_application_zero_responses :
    (handle_event envC "c1" []
        { id := some "9", event := .exitApplication, apiKey := "K" }).1.length = 0 ∧
    (handle_event envC "c1" []
        { id := some "9", event := .exitApplication, apiKey := "K" }).1.length ≠ 1 := by
  exact ⟨rfl, by decide⟩

/-- Claim C1, amended: every request that reaches the dispatcher yields
exactly one response, except exit-application (no response), media-control
requests that reach a transport-control call (no response), and validated
get-data (one ack plus one push per requested category found in the Store);
register-data-listener and unregister-data-listener yield exactly one
response in every case, success included. -/
theorem dispatcher_response_count (env : Env) (lid : String)
    (reg : Listeners) (req : Request) :
    (handle_event env lid reg req).1.length = expectedCount env req := by
  rcases req with ⟨i, ev, key, d⟩
  rcases d with ⟨pOk, k, tx, ac, v, ti, pa, ur, mo, se, vb, ve, ba⟩
  cases ev with
  | mediaControl =>
    cases pOk
    · simp [handle_event, expectedCount, mediaSuccess]
    · cases ac with
      | none => simp [handle_event, expectedCount, mediaSuccess]
      | some s =>
        rcases hpa : parseAction s with _ | a
        · simp [handle_event, expectedCount, mediaSuccess, hpa]
        · cases hrv : requiresValue a
          · simp [handle_event, expectedCount, mediaSuccess, hpa, hrv]
          · cases v <;>
              simp [handle_event, expectedCount, mediaSuccess, hpa, hrv]
  | getData =>
    cases pOk
    · simp [handle_event, expectedCount, getDataOk]
    · cases mo with
      | none => simp [handle_event, expectedCount, getDataOk]
      | some ms =>
        cases hms : ms.isEmpty
        · simp [handle_event, expectedCount, getDataOk, hms,
            length_filterMap_map, Nat.add_comm]
        · simp [handle_event, expectedCount, getDataOk, hms]
  | keyboardKeypress =>
    cases pOk
    · simp [handle_event, expectedCount]
    · cases k with
      | none => simp [handle_event, expectedCount]
      | some x =>
        cases hkv : env.keyInvalid x <;>
          simp [handle_event, expectedCount, hkv]
  | keyboardText =>
    cases pOk
    · simp [handle_event, expectedCount]
    · cases tx <;> simp [handle_event, expectedCount]
  | notification =>
    cases pOk
    · simp [handle_event, expectedCount]
    · cases ti <;> simp [handle_event, expectedCount]
  | openEvent =>
    cases pa
    · cases ur
      · simp [handle_event, expectedCount]
      · cases pOk <;> simp [handle_event, expectedCount]
    · cases pOk <;> simp [handle_event, expectedCount]
  | registerDataListener =>
    cases pOk
    · simp [handle_event, expectedCount]
    · cases mo with
      | none => simp [handle_event, expectedCount]
      | some ms =>
        cases hms : ms.isEmpty
        · cases hal : (add_listener reg lid ms).1 <;>
            simp [handle_event, expectedCount, hms, hal]
        · simp [handle_event, expectedCount, hms]
  | unregisterDataListener =>
    cases hrl : (remove_listener reg lid).1 <;>
      simp [handle_event, expectedCount, hrl]
  | getFiles =>
    cases pOk
    · simp [handle_event, expectedCount]
    · simp only [handle_event, expectedCount]
      rcases hf : (List.find? (fun kv => kv.1 == ba.getD "") env.directories).map
          (fun kv => kv.2) with _ | root
      · simp [hf]
      · cases hpe : env.pathExists root
        · simp [hf, hpe]
        · simp only [hf, hpe]
          cases pa with
          | none =>
            cases hp2 : env.pathExists root
            · simp [hp2]
            · cases hd : env.isDir root <;> simp [hp2, hd]
          | some p =>
            cases hp2 : env.pathExists (root ++ "/" ++ p)
            · simp [hp2]
            · cases hd : env.isDir (root ++ "/" ++ p) <;> simp [hp2, hd]
  | getFile =>
    cases pOk
    · simp [handle_event, expectedCount]
    · simp only [handle_event, expectedCount]
      rcases hf : (List.find? (fun kv => kv.1 == ba.getD "") env.directories).map
          (fun kv => kv.2) with _ | root
      · simp [hf]
      · cases hpe : env.pathExists root
        · simp [hf, hpe]
        · simp only [hf, hpe]
          cases hp2 : env.pathExists (root ++ "/" ++ pa.getD "")
          · simp [hp2]
          · cases hd : env.isFile (root ++ "/" ++ pa.getD "") <;>
              simp [hp2, hd]
  | applicationUpdate => cases pOk <;> simp [handle_event, expectedCount]
  | getSetting => cases pOk <;> simp [handle_event, expectedCount]
  | updateRemoteBridge => cases pOk <;> simp [handle_event, expectedCount]
  | updateSetting => cases pOk <;> simp [handle_event, expectedCount]
  | _ => simp [handle_event, expectedCount]

/-- Claim C2, counterexample: a media-control request with the valid action
`pause` invokes the transport-control action but the dispatcher sends no
acknowledgment response at all. -/
theorem media_control_no_ack :
    (handle_event envC "c2" []
        { id := some "1", event := .mediaControl, apiKey := "K",
          data := { action := some "pause" } }).1 = [] ∧
    (handle_event envC "c2" []
        { id := some "1", event := .mediaControl, apiKey := "K",
          data := { action := some "pause" } }).2.1 =
      [.mediaAction .pause none] := by
  exact ⟨rfl, rfl⟩

/-- Claim C2, amended: for every media-control request whose action field
is present, is in the enumerated action set, and (for seek/shuffle/repeat)
carries a value, the dispatcher invokes the matching transport-control
action but sends no response at all to the requesting connection (and
leaves the registry unchanged). -/
theorem media_control_invokes_without_ack (env : Env) (lid : String)
    (reg : Listeners) (req : Request) (s : String) (a : MediaAction)
    (he : req.event = .mediaControl) (hp : req.data.parseOk = true)
    (ha : req.data.action = some s) (hpa : parseAction s = some a)
    (hv : requiresValue a = true → req.data.value.isSome = true) :
    (handle_event env lid reg req).1 = [] ∧
    (handle_event env lid reg req).2.1 =
      [.mediaAction a (if requiresValue a then req.data.value else none)] ∧
    (handle_event env lid reg req).2.2 = reg := by
  cases hrv : requiresValue a
  · simp [handle_event, he, hp, ha, hpa, hrv]
  · rcases hval : req.data.value with _ | v
    · exact absurd (hv hrv) (by simp [hval])
    · simp [handle_event, he, hp, ha, hpa, hrv, hval]

/-- Claim C2, witness: a seek with a value invokes `control_seek` and sends
nothing. -/
theorem media_control_invokes_without_ack_witness :
    parseAction "seek" = some .seek ∧
    (handle_event envC "w2" []
        { id := some "3", event := .mediaControl, apiKey := "K",
          data := { action := some "seek", value := some 5 } }).1 = [] ∧
    (handle_event envC "w2" []
        { id := some "3", event := .mediaControl, apiKey := "K",
          data := { action := some "seek", value := some 5 } }).2.1 =
      [.mediaAction .seek (if requiresValue .seek then some (5 : Int) else none)] ∧
    (handle_event envC "w2" []
        { id := some "3", event := .mediaControl, apiKey := "K",
          data := { action := some "seek", value := some 5 } }).2.2 = [] := by
  exact ⟨rfl,
    media_control_invokes_without_ack envC "w2" []
      { id := some "3", event := .mediaControl, apiKey := "K",
        data := { action := some "seek", value := some 5 } }
      "seek" .seek rfl rfl rfl rfl (fun _ => rfl)⟩

/-- Claim C3: a decoded request whose api key differs from the configured
shared secret makes the session send exactly one bad_api_key error response
echoing the request's id, terminate the receive loop, and perform no
dispatch: no side effect, no registry change, and the remaining inbound
traffic is never processed. -/
theorem bad_api_key_single_response_closes (env : Env) (lid : String)
    (reg : Listeners) (req : Request) (raised : Option String)
    (rest : List Incoming) (hk : req.apiKey ≠ env.secret) :
    run_handler env lid true reg (.msg req raised :: rest) =
      ⟨[errResp req.id .bad_api_key "Invalid api-key"], [], reg,
       .closedBadApiKey⟩ := by
  simp [run_handler, handler_loop, bne_iff_ne, hk]

/-- Claim C3, witness. -/
theorem bad_api_key_single_response_closes_witness :
    "WRONG" ≠ envC.secret ∧
    run_handler envC "w3" true []
        [.msg { id := some "7", event := .exitApplication, apiKey := "WRONG" }
          none] =
      ⟨[errResp (some "7") .bad_api_key "Invalid api-key"], [], [],
       .closedBadApiKey⟩ := by
  exact ⟨by decide,
    bad_api_key_single_response_closes envC "w3" []
      { id := some "7", event := .exitApplication, apiKey := "WRONG" }
      none [] (by decide)⟩

/-- Claim C4: when the dispatch of an authenticated request raises, the
session catches the exception, sends exactly one unknown_event error
response carrying the exception's message and echoing the request's id, and
the receive loop continues with the remaining inbound traffic. -/
theorem dispatch_exception_recovered (env : Env) (lid : String)
    (reg : Listeners) (req : Request) (m : String) (rest : List Incoming)
    (hk : req.apiKey = env.secret) :
    run_handler env lid true reg (.msg req (some m) :: rest) =
      ⟨errResp req.id .unknown_event m ::
         (run_handler env lid true reg rest).responses,
       (run_handler env lid true reg rest).effects,
       (run_handler env lid true reg rest).registry,
       (run_handler env lid true reg rest).ending⟩ := by
  simp [run_handler, handler_loop, hk]

/-- Claim C4, witness: the session survives the raising dispatch and ends
still looping (`drained`), not closed. -/
theorem dispatch_exception_recovered_witness :
    ({ id := some "4", event := .getSettings, apiKey := "K" } : Request).apiKey
        = envC.secret ∧
    run_handler envC "w4" true []
        [.msg { id := some "4", event := .getSettings, apiKey := "K" }
          (some "boom")] =
      ⟨[errResp (some "4") .unknown_event "boom"], [], [], .drained⟩ := by
  exact ⟨rfl,
    (dispatch_exception_recovered envC "w4" []
      { id := some "4", event := .getSettings, apiKey := "K" }
      "boom" [] rfl).trans rfl⟩

/-- Claim C5: on every exit path of the session handler the connection's
registration is removed from the registry (the cleanup of the `finally`
block always runs), so no later notification ever targets the closed
session's connection id. -/
theorem listener_cleanup_on_exit (env : Env) (lid : String) (active : Bool)
    (reg : Listeners) (msgs : List Incoming) :
    (∀ p ∈ (handler env lid active reg msgs).registry, p.1 ≠ lid) ∧
    (∀ category,
       lid ∉ notifyTargets (handler env lid active reg msgs).registry
         category) := by
  constructor
  · intro p hp
    exact remove_listener_removes _ _ p hp
  · intro category hmem
    rcases List.mem_map.mp hmem with ⟨p, hp, hp1⟩
    exact remove_listener_removes _ _ p (List.mem_of_mem_filter hp) hp1

/-- Claim C8: a register-data-listener request with a missing or empty
modules list yields exactly one missing_modules error response echoing the
request's id, calls no registry operation, and leaves the registry
unchanged. -/
theorem register_missing_modules_no_side_effect (env : Env) (lid : String)
    (reg : Listeners) (req : Request)
    (he : req.event = .registerDataListener) (hp : req.data.parseOk = true)
    (hm : req.data.modules = none ∨ req.data.modules = some []) :
    handle_event env lid reg req =
      ([errResp req.id .missing_modules "No modules provided"], [], reg) := by
  rcases hm with hm | hm <;> simp [handle_event, he, hp, hm]

/-- Claim C8, witness. -/
theorem register_missing_modules_no_side_effect_witness :
    (({ id := some "5", event := .registerDataListener, apiKey := "K",
        data := { modules := some [] } } : Request)).data.modules = some [] ∧
    handle_event envC "w8" [("other", ["cpu"])]
        { id := some "5", event := .registerDataListener, apiKey := "K",
          data := { modules := some [] } } =
      ([errResp (some "5") .missing_modules "No modules provided"], [],
       [("other", ["cpu"])]) := by
  exact ⟨rfl,
    register_missing_modules_no_side_effect envC "w8" [("other", ["cpu"])]
      { id := some "5", event := .registerDataListener, apiKey := "K",
        data := { modules := some [] } }
      rfl rfl (Or.inr rfl)⟩

/-- Claim C9: a registry notification for a module in the enumerated
`MODULES` list makes the session emit exactly one data-update response
carrying the module name and the data; a module outside the list is dropped
without sending anything. -/
theorem data_changed_push (module : String) (d : DataDict) :
    (module ∈ MODULES →
       data_changed true module d =
         [{ rtype := .dataUpdate, message := "Data changed",
            module := some module, payload := some d }]) ∧
    (module ∉ MODULES → ∀ active, data_changed active module d = []) := by
  constructor
  · intro hm
    simp [data_changed, hm]
  · intro hm active
    simp [data_changed, hm]

/-- Claim C9, witness. -/
theorem data_changed_push_witness :
    ("cpu" ∈ MODULES ∧
       data_changed true "cpu" [("k", "v")] =
         [{ rtype := .dataUpdate, message := "Data changed",
            module := some "cpu", payload := some [("k", "v")] }]) ∧
    ("bogus" ∉ MODULES ∧ data_changed false "bogus" [] = []) := by
  exact ⟨⟨by decide, (data_changed_push "cpu" [("k", "v")]).1 (by decide)⟩,
    ⟨by decide, (data_changed_push "bogus" []).2 (by decide) false⟩⟩

/-- Claim C10: in an open request with a path field present, the path takes
precedence: only the open-path action runs and the single response is
`opened` echoing the path, whatever the url field holds; and a
missing_path_url error appears exactly when neither field is present. -/
theorem open_path_precedence (env : Env) (lid : String) (reg : Listeners)
    (req : Request) (he : req.event = .openEvent) :
    (∀ p, req.data.path = some p → req.data.parseOk = true →
       handle_event env lid reg req =
         ([{ id := req.id, rtype := .opened, message := "Path opened",
             path := some p }],
          [.openPath p], reg)) ∧
    ((∃ r ∈ (handle_event env lid reg req).1,
        r.subtype = some ErrSub.missing_path_url) ↔
       req.data.path = none ∧ req.data.url = none) := by
  constructor
  · intro p hp hok
    simp [handle_event, he, hp, hok]
  · constructor
    · rintro ⟨r, hr, hsub⟩
      rcases hpa : req.data.path with _ | p
      · rcases hu : req.data.url with _ | u
        · exact ⟨rfl, rfl⟩
        · cases hok : req.data.parseOk <;>
            simp [handle_event, he, hpa, hu, hok] at hr <;>
            simp [hr, errResp] at hsub
      · cases hok : req.data.parseOk <;>
          simp [handle_event, he, hpa, hok] at hr <;>
          simp [hr, errResp] at hsub
    · rintro ⟨h1, h2⟩
      exact ⟨errResp req.id .missing_path_url "No path or url provided",
        by simp [handle_event, he, h1, h2], rfl⟩

/-- Claim C10, witness: an open request carrying both a path and a url
opens the path only. -/
theorem open_path_precedence_witness :
    (({ id := some "6", event := .openEvent, apiKey := "K",
        data := { path := some "/tmp/a", url := some "http://x" } } :
          Request)).data.path = some "/tmp/a" ∧
    handle_event envC "w10" []
        { id := some "6", event := .openEvent, apiKey := "K",
          data := { path := some "/tmp/a", url := some "http://x" } } =
      ([{ id := some "6", rtype := .opened, message := "Path opened",
          path := some "/tmp/a" }],
       [.openPath "/tmp/a"], []) := by
  exact ⟨rfl,
    (open_path_precedence envC "w10" []
      { id := some "6", event := .openEvent, apiKey := "K",
        data := { path := some "/tmp/a", url := some "http://x" } }
      rfl).1 "/tmp/a" rfl rfl⟩

/-- Claim C6: every frequent-trigger trace refreshes and notifies sensors
first (its two events open the trace and no later event concerns sensors);
each of the six concurrently driven categories has, as its subsequence of
the trace, exactly its refresh followed by its notification; and the trace
contains the refresh and the notification of every category of the trigger,
so the trigger returns only after all of them. -/
theorem frequent_trigger_ordering (t : List UEvent) (h : FrequentTrace t) :
    (∃ t6, t = UEvent.refresh "sensors" :: UEvent.notify "sensors" :: t6 ∧
       ∀ e ∈ t6, catOf e ≠ "sensors") ∧
    (∀ c ∈ frequentNames,
       t.filter (fun e => catOf e == c) = [UEvent.refresh c, UEvent.notify c]) ∧
    (∀ c ∈ "sensors" :: frequentNames,
       UEvent.refresh c ∈ t ∧ UEvent.notify c ∈ t) := by
  obtain ⟨t6, hm, rfl⟩ := h
  have hpre : ∀ c : String, ("sensors" == c) = false →
      (UEvent.refresh "sensors" :: UEvent.notify "sensors" :: t6).filter
          (fun e => catOf e == c) =
        t6.filter (fun e => catOf e == c) := by
    intro c hc
    simp [List.filter_cons, catOf, hc]
  have hflt : ∀ c ∈ frequentNames,
      (UEvent.refresh "sensors" :: UEvent.notify "sensors" :: t6).filter
          (fun e => catOf e == c) = [UEvent.refresh c, UEvent.notify c] := by
    intro c hc
    simp only [frequentNames, List.mem_cons, List.not_mem_nil, or_false] at hc
    rcases hc with rfl | rfl | rfl | rfl | rfl | rfl
    · exact (hpre _ (by decide)).trans
        ((merge_filter _ hm 0 (by decide) (by decide)).trans (by decide))
    · exact (hpre _ (by decide)).trans
        ((merge_filter _ hm 1 (by decide) (by decide)).trans (by decide))
    · exact (hpre _ (by decide)).trans
        ((merge_filter _ hm 2 (by decide) (by decide)).trans (by decide))
    · exact (hpre _ (by decide)).trans
        ((merge_filter _ hm 3 (by decide) (by decide)).trans (by decide))
    · exact (hpre _ (by decide)).trans
        ((merge_filter _ hm 4 (by decide) (by decide)).trans (by decide))
    · exact (hpre _ (by decide)).trans
        ((merge_filter _ hm 5 (by decide) (by decide)).trans (by decide))
  refine ⟨⟨t6, rfl, ?_⟩, hflt, ?_⟩
  · intro e he
    rcases merge_mem hm e he with ⟨l, hl, hel⟩
    rcases List.mem_map.mp hl with ⟨c, hc, rfl⟩
    have hcat : catOf e = c := by
      simp only [seqOf, List.mem_cons, List.not_mem_nil, or_false] at hel
      rcases hel with rfl | rfl <;> rfl
    rw [hcat]
    simp only [frequentNames, List.mem_cons, List.not_mem_nil, or_false] at hc
    rcases hc with rfl | rfl | rfl | rfl | rfl | rfl <;> decide
  · intro c hc
    rcases List.mem_cons.mp hc with rfl | hc
    · exact ⟨List.mem_cons_self _ _,
        List.mem_cons_of_mem _ (List.mem_cons_self _ _)⟩
    · have hf := hflt c hc
      have h1 : UEvent.refresh c ∈
          (UEvent.refresh "sensors" :: UEvent.notify "sensors" :: t6).filter
            (fun e => catOf e == c) := by
        rw [hf]; exact List.mem_cons_self _ _
      have h2 : UEvent.notify c ∈
          (UEvent.refresh "sensors" :: UEvent.notify "sensors" :: t6).filter
            (fun e => catOf e == c) := by
        rw [hf]; exact List.mem_cons_of_mem _ (List.mem_cons_self _ _)
      exact ⟨List.mem_of_mem_filter h1, List.mem_of_mem_filter h2⟩

/-- Claim C6, witness: the sequential schedule is a frequent-trigger trace
and satisfies the ordering properties. -/
theorem frequent_trigger_ordering_witness :
    FrequentTrace seqTrace ∧
    ((∃ t6, seqTrace = UEvent.refresh "sensors" :: UEvent.notify "sensors" :: t6 ∧
        ∀ e ∈ t6, catOf e ≠ "sensors") ∧
     (∀ c ∈ frequentNames,
        seqTrace.filter (fun e => catOf e == c) =
          [UEvent.refresh c, UEvent.notify c]) ∧
     (∀ c ∈ "sensors" :: frequentNames,
        UEvent.refresh c ∈ seqTrace ∧ UEvent.notify c ∈ seqTrace)) := by
  have hft : FrequentTrace seqTrace :=
    ⟨(frequentNames.map seqOf).flatten, merge_join _, rfl⟩
  exact ⟨hft, frequent_trigger_ordering seqTrace hft⟩

/-- Claim C7: a member collector raising during its refresh is not caught
by the scheduler: the trigger operation itself results in a raised
exception (one raised by a member of that trigger), for both the frequent
and the full trigger; the trigger never completes successfully and no
member is retried. -/
theorem scheduler_fail_fast (oc : Outcomes) (c : String) (e : String)
    (he : oc c = .error e) :
    (c ∈ "sensors" :: frequentNames →
       ∃ e2, update_frequent_data oc = .error e2 ∧
         ∃ c2 ∈ "sensors" :: frequentNames, oc c2 = .error e2) ∧
    (c ∈ fullNames →
       ∃ e2, update_data oc = .error e2 ∧
         ∃ c2 ∈ fullNames, oc c2 = .error e2) := by
  constructor
  · intro hc
    rcases List.mem_cons.mp hc with rfl | hc
    · exact ⟨e, by simp [update_frequent_data, he], "sensors",
        List.mem_cons_self _ _, he⟩
    · cases hs : oc "sensors" with
      | error es =>
        exact ⟨es, by simp [update_frequent_data, hs], "sensors",
          List.mem_cons_self _ _, hs⟩
      | ok u =>
        rcases gather_error hc he with ⟨e2, hg, c2, hc2, he2⟩
        exact ⟨e2, by simp [update_frequent_data, hs, hg], c2,
          List.mem_cons_of_mem _ hc2, he2⟩
  · intro hc
    rcases gather_error hc he with ⟨e2, hg, c2, hc2, he2⟩
    exact ⟨e2, hg, c2, hc2, he2⟩

/-- Claim C7, witness: with the memory collector raising, the frequent
trigger raises that same exception. -/
theorem scheduler_fail_fast_witness :
    oc0 "memory" = .error "boom" ∧
    "memory" ∈ "sensors" :: frequentNames ∧
    update_frequent_data oc0 = .error "boom" ∧
    (∃ e2, update_frequent_data oc0 = .error e2 ∧
       ∃ c2 ∈ "sensors" :: frequentNames, oc0 c2 = .error e2) := by
  exact ⟨rfl, by decide, rfl,
    (scheduler_fail_fast oc0 "memory" "boom" rfl).1 (by decide)⟩

end SystemBridge
